import Mathlib

/-!
Verification of the search-screen orchestration logic of the
mattermost-mobile search feature (shallow embedding).

The embedding covers:
* the query-normalization helper `getSearchParams`;
* the orchestrator handlers `handleCancelAndClearSearch`, `handleSearch`
  (split into its synchronous pre-await phase and its post-await commit
  phase, so that overlapping calls can be interleaved), `handleFilterChange`
  and `handleResultsTeamChange`;
* the file-results pane helpers `orderedFilesForGallery`,
  `filesForGalleryIndexes` and `handlePreviewPress`.

External collaborators (the post search service, the file search service,
the search-history store, and header lock/unlock) are modelled as effects
recorded in an effect list, and their responses as explicit arguments.
-/

namespace MMSearch

/-- The closed set of file-type filters (`FileFilters` in `@utils/file`).
The audio filter's constructor carries a trailing underscore. -/
inductive FileFilter where
  | ALL
  | DOCUMENTS
  | SPREADSHEETS
  | PRESENTATIONS
  | CODE
  | IMAGES
  | VIDEOS
  | AUDIO_
deriving DecidableEq, Repr

/-- A file record as used by the search screens: the fields the embedded
code reads. `id` and `create_at` are optional because the code guards them
(`v.id`, `f.create_at || 0`). -/
structure FileInfo where
  id : Option String
  create_at : Option Int
  user_id : Option String
  channel_id : Option String
deriving DecidableEq, Repr

/-- The normalized search request (`getSearchParams`' return value). -/
structure SearchParams where
  terms : String
  is_or_search : Bool
deriving DecidableEq, Repr

/-- Result shape of the post search service: `{order: postId[]}` with the
field optional, as the code reads `postResults?.order?.length`. -/
structure PostSearchResult where
  order : Option (List String)
deriving DecidableEq, Repr

/-- Result shape of the file search service: `{files, channels}` with both
fields optional, as the code reads `files?.length` and `channels?.length`.
Modelled from the spec: a service failure is absorbed by the service and
surfaces here as missing data (the remote actions are not part of the
reviewed sources). -/
structure FileSearchResult where
  files : Option (List FileInfo)
  channels : Option (List String)
deriving DecidableEq, Repr

/-- Calls the orchestrator makes into its collaborators, recorded in order. -/
inductive Effect where
  | addSearchHistory (serverUrl teamId term : String)
  | searchPostsCall (serverUrl teamId : String) (params : SearchParams)
  | searchFilesCall (serverUrl teamId : String) (params : SearchParams)
  | showAndUnlock
  | hideAndLock
deriving DecidableEq, Repr

/-- Whether an effect is an invocation of the post search service, the file
search service, or the search-history store. -/
def Effect.isServiceOrHistory : Effect → Bool
  | .addSearchHistory _ _ _ => true
  | .searchPostsCall _ _ _ => true
  | .searchFilesCall _ _ _ => true
  | .showAndUnlock => false
  | .hideAndLock => false

/-- The React state of the `SearchScreen` component (the `useState` cells
the embedded handlers read and write). -/
structure SearchState where
  searchValue : String
  searchTeamId : String
  filter : FileFilter
  showResults : Bool
  loading : Bool
  resultsLoading : Bool
  lastSearchedValue : String
  postIds : List String
  fileInfos : List FileInfo
  fileChannelIds : List String
deriving DecidableEq, Repr

/-- Modelled from the spec: `filterFileExtensions` of `@utils/file` is not
among the reviewed sources. Per the spec it maps each filter to a fixed,
non-empty string of file-extension tokens joined by spaces, and ALL (or an
absent filter) to no qualifier; the empty string models the falsy value. -/
def filterFileExtensions : Option FileFilter → String
  | none => ""
  | some .ALL => ""
  | some .DOCUMENTS => "ext:doc ext:docx ext:odt ext:pdf ext:txt"
  | some .SPREADSHEETS => "ext:xls ext:xlsx ext:csv ext:ods"
  | some .PRESENTATIONS => "ext:ppt ext:pptx ext:odp"
  | some .CODE => "ext:py ext:go ext:java ext:kt ext:c ext:cpp ext:h"
  | some .IMAGES => "ext:jpg ext:gif ext:bmp ext:png ext:jpeg ext:tiff"
  | some .VIDEOS => "ext:mp4 ext:avi ext:webm ext:mkv ext:wmv ext:mpg ext:mov"
  | some .AUDIO_ => "ext:mp3 ext:wav ext:wma ext:m4a ext:flac ext:aac ext:ogg"

/-- `getSearchParams(terms, filterValue?)`: appends a space and the filter's
extension qualifier when the qualifier is non-empty (JS truthiness of the
extension string), and always sets `is_or_search: true`. -/
def getSearchParams (terms : String) (filterValue : Option FileFilter) : SearchParams :=
  let fileExtensions := filterFileExtensions filterValue
  let extensionTerms := if fileExtensions = "" then "" else " " ++ fileExtensions
  { terms := terms ++ extensionTerms
    is_or_search := true }

/-- `handleCancelAndClearSearch`: unlock the header, clear the raw query and
the last-searched value, reset the filter to ALL, hide the results pane.
It writes no other state cell. -/
def handleCancelAndClearSearch (st : SearchState) : SearchState × List Effect :=
  ({ st with
      searchValue := ""
      lastSearchedValue := ""
      filter := .ALL
      showResults := false },
   [.showAndUnlock])

/-- `handleLoading(show)`: the closure branches on the `showResults` value
captured when the callback was created, passed here as `captured`. -/
def handleLoading (st : SearchState) (captured : Bool) (show_ : Bool) : SearchState :=
  if captured then { st with resultsLoading := show_ } else { st with loading := show_ }

/-- `postResults?.order?.length ? postResults.order : emptyPostResults`. -/
def commitPostIds (postResults : Option PostSearchResult) : List String :=
  match postResults with
  | some pr =>
    match pr.order with
    | some order => if order.length ≠ 0 then order else []
    | none => []
  | none => []

/-- `files?.length ? files : emptyFileResults`. -/
def commitFiles (files : Option (List FileInfo)) : List FileInfo :=
  match files with
  | some fs => if fs.length ≠ 0 then fs else []
  | none => []

/-- `channels?.length ? channels : emptyChannelIds`. -/
def commitChannels (channels : Option (List String)) : List String :=
  match channels with
  | some cs => if cs.length ≠ 0 then cs else []
  | none => []

/-- Outcome of the synchronous part of `handleSearch`, up to the `await`. -/
inductive PreOutcome where
  | cancelled (st : SearchState) (effects : List Effect)
  | proceed (st : SearchState) (params : SearchParams) (effects : List Effect)
deriving DecidableEq, Repr

/-- The synchronous prefix of `handleSearch(newSearchTeamId, term)`: build
the params with no filter, short-circuit to cancel if the terms are falsy,
otherwise raise the loading flag, reset the filter to ALL, set the
last-searched value, record the query in the search history, and dispatch
both search requests. -/
def handleSearchPre (st : SearchState) (serverUrl newSearchTeamId term : String) :
    PreOutcome :=
  let searchParams := getSearchParams term none
  if searchParams.terms = "" then
    let r := handleCancelAndClearSearch st
    .cancelled r.1 r.2
  else
    let st1 := handleLoading st st.showResults true
    let st2 := { st1 with filter := FileFilter.ALL, lastSearchedValue := term }
    .proceed st2 searchParams
      [.addSearchHistory serverUrl newSearchTeamId term,
       .searchPostsCall serverUrl newSearchTeamId searchParams,
       .searchFilesCall serverUrl newSearchTeamId searchParams]

/-- The continuation of `handleSearch` after both fetches settle: commit the
three result arrays with defensive empty defaults, show the results pane,
lock the header, drop the loading flag (using the `showResults` value the
closure captured at creation). -/
def handleSearchCommit (st : SearchState) (captured : Bool)
    (postResults : Option PostSearchResult) (fileResults : FileSearchResult) :
    SearchState × List Effect :=
  let st1 := { st with
      fileInfos := commitFiles fileResults.files
      postIds := commitPostIds postResults
      fileChannelIds := commitChannels fileResults.channels
      showResults := true }
  let st2 := handleLoading st1 captured false
  (st2, [.hideAndLock])

/-- A whole, non-overlapped run of `handleSearch(newSearchTeamId, term)`
with the two fetch responses given: the pre phase followed, when it
proceeds, by the commit phase. -/
def handleSearch (st : SearchState) (serverUrl newSearchTeamId term : String)
    (postResults : Option PostSearchResult) (fileResults : FileSearchResult) :
    SearchState × List Effect :=
  match handleSearchPre st serverUrl newSearchTeamId term with
  | .cancelled st' effs => (st', effs)
  | .proceed st' _ effs =>
    let r := handleSearchCommit st' st.showResults postResults fileResults
    (r.1, effs ++ r.2)

/-- `handleFilterChange(filterValue)`: set the filter, build the params from
the last-searched value plus the new filter, issue only the file search, and
commit files and channels; `postIds` is not written. -/
def handleFilterChange (st : SearchState) (serverUrl : String)
    (filterValue : FileFilter) (fileResults : FileSearchResult) :
    SearchState × List Effect :=
  let st1 := { st with filter := filterValue }
  let searchParams := getSearchParams st.lastSearchedValue (some filterValue)
  let st2 := { st1 with
      fileInfos := commitFiles fileResults.files
      fileChannelIds := commitChannels fileResults.channels }
  (st2, [.searchFilesCall serverUrl st.searchTeamId searchParams])

/-- `handleResultsTeamChange(newTeamId)`: set the search team id, then run
`handleSearch(newTeamId, lastSearchedValue)`. -/
def handleResultsTeamChange (st : SearchState) (serverUrl newTeamId : String)
    (postResults : Option PostSearchResult) (fileResults : FileSearchResult) :
    SearchState × List Effect :=
  let st1 := { st with searchTeamId := newTeamId }
  handleSearch st1 serverUrl newTeamId st.lastSearchedValue postResults fileResults

/-- The state visible between the dispatch of a submit's fetches and their
resolution: the pre phase's state (for the cancelled branch, the cancelled
state). -/
def preState (st : SearchState) (serverUrl newSearchTeamId term : String) : SearchState :=
  match handleSearchPre st serverUrl newSearchTeamId term with
  | .cancelled st' _ => st'
  | .proceed st' _ _ => st'

/-- Two overlapping `handleSearch` calls where the first call's fetches
resolve after the second call's: pre 1, pre 2, commit 2, commit 1, each
commit using the `showResults` value its closure captured at its own entry.
Returns the finally committed state. -/
def overlappingSubmitsFinal (st0 : SearchState) (serverUrl : String)
    (team1 term1 team2 term2 : String)
    (post1 : Option PostSearchResult) (file1 : FileSearchResult)
    (post2 : Option PostSearchResult) (file2 : FileSearchResult) : SearchState :=
  match handleSearchPre st0 serverUrl team1 term1 with
  | .cancelled st1 _ => st1
  | .proceed st1 _ _ =>
    match handleSearchPre st1 serverUrl team2 term2 with
    | .cancelled st2 _ => st2
    | .proceed st2 _ _ =>
      let r2 := handleSearchCommit st2 st1.showResults post2 file2
      let r1 := handleSearchCommit r2.1 st0.showResults post1 file1
      r1.1

/-- The sort key of the file-results comparator: `f.create_at || 0`. -/
def galleryKey (f : FileInfo) : Int :=
  f.create_at.getD 0

/-- The comparator `(a, b) => (b.create_at || 0) - (a.create_at || 0)` as a
"keeps a before b" boolean: the comparator is non-positive exactly when
b's key is at most a's. -/
def galleryLe (a b : FileInfo) : Bool :=
  galleryKey b ≤ galleryKey a

/-- `filesForGallery`: images first, then non-image attachments. -/
def filesForGallery (imageAttachments nonImageAttachments : List FileInfo) :
    List FileInfo :=
  imageAttachments ++ nonImageAttachments

/-- `orderedFilesForGallery`: the gallery files sorted by the comparator
`(b.create_at || 0) - (a.create_at || 0)` (descending creation time; the
JS engine's `Array.prototype.sort` is a stable sort, modelled by a stable
merge sort). -/
def orderedFilesForGallery (imageAttachments nonImageAttachments : List FileInfo) :
    List FileInfo :=
  (filesForGallery imageAttachments nonImageAttachments).mergeSort galleryLe

/-- The fold of `filesForGalleryIndexes`' reduce, threading the running
index `k`: each file that has an id overwrites the accumulated map at that
id with the file's position. -/
def indexMapFrom : List FileInfo → Nat → (String → Option Nat) → (String → Option Nat)
  | [], _, acc => acc
  | f :: rest, k, acc =>
    indexMapFrom rest (k + 1)
      (match f.id with
       | some i => fun s => if s = i then some k else acc s
       | none => acc)

/-- `filesForGalleryIndexes`: `orderedFilesForGallery.reduce((acc, v, idx)
=> { if (v.id) acc[v.id] = idx; return acc }, {})`, as a lookup function. -/
def filesForGalleryIndexes (ordered : List FileInfo) : String → Option Nat :=
  indexMapFrom ordered 0 (fun _ => none)

/-- A gallery item as produced by `fileToGalleryItem(f, f.user_id)`; the
conversion itself is an external helper, kept abstract as the pairing of
the file with the passed user id. -/
structure GalleryItem where
  file : FileInfo
  authorId : Option String
deriving DecidableEq, Repr

/-- `fileToGalleryItem` applied the way `handlePreviewPress` applies it. -/
def fileToGalleryItem (f : FileInfo) (userId : Option String) : GalleryItem :=
  { file := f, authorId := userId }

/-- `handlePreviewPress(idx)`: hand the gallery the ordered files converted
to gallery items, opened at `idx` (the call to `openGalleryAtIndex`,
recorded as its arguments). -/
def handlePreviewPress (ordered : List FileInfo) (idx : Nat) :
    String × Nat × List GalleryItem :=
  ("search-files-location", idx, ordered.map (fun f => fileToGalleryItem f f.user_id))

/-- A concrete initial screen state: nothing searched yet. -/
def stInit : SearchState :=
  { searchValue := ""
    searchTeamId := "team1"
    filter := .ALL
    showResults := false
    loading := false
    resultsLoading := false
    lastSearchedValue := ""
    postIds := []
    fileInfos := []
    fileChannelIds := [] }

/-- A concrete state with a committed search for "cat" and the IMAGES
filter active. -/
def stR : SearchState :=
  { searchValue := "cat"
    searchTeamId := "team1"
    filter := .IMAGES
    showResults := true
    loading := false
    resultsLoading := false
    lastSearchedValue := "cat"
    postIds := ["p1"]
    fileInfos := []
    fileChannelIds := ["c1"] }

/-- C9: for every non-empty text, normalizing with the ALL filter (or with
no filter, as `handleSearch` does) returns terms exactly equal to the text,
with no extension qualifier appended, and with `is_or_search` true. -/
theorem C9_normalize_all_identity (text : String) (h : text ≠ "") :
    (getSearchParams text (some .ALL)).terms = text ∧
    (getSearchParams text (some .ALL)).is_or_search = true ∧
    (getSearchParams text none).terms = text := by
  refine ⟨?_, rfl, ?_⟩ <;> simp [getSearchParams, filterFileExtensions]

/-- Witness for C9 at text "cat". -/
theorem C9_normalize_all_identity_witness :
    ("cat" : String) ≠ "" ∧
    ((getSearchParams "cat" (some .ALL)).terms = "cat" ∧
     (getSearchParams "cat" (some .ALL)).is_or_search = true ∧
     (getSearchParams "cat" none).terms = "cat") :=
  ⟨by decide, C9_normalize_all_identity "cat" (by decide)⟩

/-- C7 counterexample: re-normalizing the normalized terms with the same
non-ALL filter appends the qualifier a second time, so normalization is not
idempotent. -/
theorem C7_idempotence_counterexample :
    (getSearchParams (getSearchParams "cat" (some .DOCUMENTS)).terms
        (some .DOCUMENTS)).terms ≠
      (getSearchParams "cat" (some .DOCUMENTS)).terms := by
  decide

/-- C7 (amended): for every text and filter other than ALL, the normalized
terms are text + " " + the filter's extension qualifier; re-normalizing
those terms with the same filter appends the qualifier a second time
rather than returning the same terms (the helper is not idempotent). -/
theorem C7_normalize_filter_appends (text : String) (filter : FileFilter)
    (h : filter ≠ FileFilter.ALL) :
    (getSearchParams text (some filter)).terms =
      text ++ " " ++ filterFileExtensions (some filter) ∧
    (getSearchParams (getSearchParams text (some filter)).terms
        (some filter)).terms =
      text ++ " " ++ filterFileExtensions (some filter) ++ " " ++
        filterFileExtensions (some filter) := by
  cases filter
  case ALL => exact absurd rfl h
  all_goals
    constructor <;> simp [getSearchParams, filterFileExtensions, String.append_assoc]

/-- Witness for C7 at text "cat", filter DOCUMENTS. -/
theorem C7_normalize_filter_appends_witness :
    FileFilter.DOCUMENTS ≠ FileFilter.ALL ∧
    ((getSearchParams "cat" (some .DOCUMENTS)).terms =
      "cat" ++ " " ++ filterFileExtensions (some .DOCUMENTS) ∧
     (getSearchParams (getSearchParams "cat" (some .DOCUMENTS)).terms
        (some .DOCUMENTS)).terms =
      "cat" ++ " " ++ filterFileExtensions (some .DOCUMENTS) ++ " " ++
        filterFileExtensions (some .DOCUMENTS)) :=
  ⟨by decide, C7_normalize_filter_appends "cat" .DOCUMENTS (by decide)⟩

/-- C5 counterexample: cancel does not empty the committed result arrays;
from a state with `postIds = ["p1"]`, the post ids survive the cancel. -/
theorem C5_cancel_counterexample :
    (handleCancelAndClearSearch stR).1.postIds ≠ [] := by
  decide

/-- C5 (amended): cancel clears the raw query text and the last-searched
value, resets the filter to ALL, hides the results pane and unlocks the
header, but leaves the result arrays (postIds, fileInfos, fileChannelIds)
untouched; they are merely no longer shown. -/
theorem C5_cancel_clears (st : SearchState) :
    handleCancelAndClearSearch st =
      ({ st with
          searchValue := ""
          lastSearchedValue := ""
          filter := .ALL
          showResults := false },
       [.showAndUnlock]) ∧
    (handleCancelAndClearSearch st).1.postIds = st.postIds ∧
    (handleCancelAndClearSearch st).1.fileInfos = st.fileInfos ∧
    (handleCancelAndClearSearch st).1.fileChannelIds = st.fileChannelIds :=
  ⟨rfl, rfl, rfl, rfl⟩

/-- C4: a filter change issues exactly one file-search call whose terms are
built from the last-searched value plus the new filter's extension
qualifier; the issued request does not depend on the live query text
(`searchValue`); `postIds` is left unchanged and only `fileInfos` and
`fileChannelIds` are replaced from the response; the filter cell reflects
the new filter. -/
theorem C4_filter_change (st : SearchState) (serverUrl : String)
    (filterValue : FileFilter) (fileResults : FileSearchResult) :
    (handleFilterChange st serverUrl filterValue fileResults).2 =
      [.searchFilesCall serverUrl st.searchTeamId
        (getSearchParams st.lastSearchedValue (some filterValue))] ∧
    (∀ v : String,
      (handleFilterChange { st with searchValue := v } serverUrl filterValue
          fileResults).2 =
        (handleFilterChange st serverUrl filterValue fileResults).2) ∧
    (handleFilterChange st serverUrl filterValue fileResults).1.postIds =
      st.postIds ∧
    (handleFilterChange st serverUrl filterValue fileResults).1.fileInfos =
      commitFiles fileResults.files ∧
    (handleFilterChange st serverUrl filterValue fileResults).1.fileChannelIds =
      commitChannels fileResults.channels ∧
    (handleFilterChange st serverUrl filterValue fileResults).1.filter =
      filterValue ∧
    (handleFilterChange st serverUrl filterValue fileResults).1.lastSearchedValue =
      st.lastSearchedValue :=
  ⟨rfl, fun _ => rfl, rfl, rfl, rfl, rfl, rfl⟩

/-- C6 counterexample: a whitespace-only query is truthy in the code's
emptiness test, so submitting " " does invoke the search services and the
history store instead of short-circuiting to the cancelled state. -/
theorem C6_whitespace_counterexample :
    ((handleSearch stR "srv" "team1" " " (some { order := some ["p9"] })
        { files := some [], channels := some [] }).2.any
      Effect.isServiceOrHistory) = true := by
  decide

/-- C6 (amended): only a submit whose query text is exactly the empty
string short-circuits to the cancelled state, emitting only the header
unlock and invoking neither search service nor the history store; a
whitespace-only query is not short-circuited. -/
theorem C6_empty_submit (st : SearchState) (serverUrl teamId : String)
    (post : Option PostSearchResult) (file : FileSearchResult) :
    handleSearch st serverUrl teamId "" post file =
      ({ st with
          searchValue := ""
          lastSearchedValue := ""
          filter := .ALL
          showResults := false },
       [.showAndUnlock]) ∧
    Effect.isServiceOrHistory .showAndUnlock = false :=
  ⟨rfl, rfl⟩

/-- C3 counterexample: from a committed state with the IMAGES filter
active, a team change runs `handleSearch`, which resets the filter to ALL;
the filter observable after the call is not the value it had before. -/
theorem C3_team_change_counterexample :
    (handleResultsTeamChange stR "srv" "team2" (some { order := some ["p2"] })
        { files := some [], channels := some [] }).1.filter ≠
      FileFilter.IMAGES := by
  decide

/-- C3 (amended): for every team change with a committed (non-empty)
last-searched value, `handleResultsTeamChange` re-issues the history write
and both searches under the last-searched value and the new team id, and
commits the responses — but, being a full `handleSearch` run, it resets the
active filter to ALL rather than preserving it. -/
theorem C3_team_change_reissues (st : SearchState) (serverUrl newTeamId : String)
    (post : Option PostSearchResult) (file : FileSearchResult)
    (h : st.lastSearchedValue ≠ "") :
    (handleResultsTeamChange st serverUrl newTeamId post file).2 =
      [.addSearchHistory serverUrl newTeamId st.lastSearchedValue,
       .searchPostsCall serverUrl newTeamId
         { terms := st.lastSearchedValue, is_or_search := true },
       .searchFilesCall serverUrl newTeamId
         { terms := st.lastSearchedValue, is_or_search := true },
       .hideAndLock] ∧
    (handleResultsTeamChange st serverUrl newTeamId post file).1.searchTeamId =
      newTeamId ∧
    (handleResultsTeamChange st serverUrl newTeamId post file).1.filter =
      FileFilter.ALL ∧
    (handleResultsTeamChange st serverUrl newTeamId post file).1.postIds =
      commitPostIds post ∧
    (handleResultsTeamChange st serverUrl newTeamId post file).1.fileInfos =
      commitFiles file.files ∧
    (handleResultsTeamChange st serverUrl newTeamId post file).1.fileChannelIds =
      commitChannels file.channels := by
  by_cases hs : st.showResults <;>
    unfold handleResultsTeamChange handleSearch handleSearchPre
      handleSearchCommit handleLoading getSearchParams filterFileExtensions <;>
    simp [h, hs]

/-- Witness for C3 at the concrete committed state `stR`. -/
theorem C3_team_change_reissues_witness :
    stR.lastSearchedValue ≠ "" ∧
    ((handleResultsTeamChange stR "srv" "team2" (some { order := some ["p2"] })
        { files := some [], channels := some [] }).2 =
      [.addSearchHistory "srv" "team2" stR.lastSearchedValue,
       .searchPostsCall "srv" "team2"
         { terms := stR.lastSearchedValue, is_or_search := true },
       .searchFilesCall "srv" "team2"
         { terms := stR.lastSearchedValue, is_or_search := true },
       .hideAndLock] ∧
     (handleResultsTeamChange stR "srv" "team2" (some { order := some ["p2"] })
        { files := some [], channels := some [] }).1.searchTeamId = "team2" ∧
     (handleResultsTeamChange stR "srv" "team2" (some { order := some ["p2"] })
        { files := some [], channels := some [] }).1.filter = FileFilter.ALL ∧
     (handleResultsTeamChange stR "srv" "team2" (some { order := some ["p2"] })
        { files := some [], channels := some [] }).1.postIds =
       commitPostIds (some { order := some ["p2"] }) ∧
     (handleResultsTeamChange stR "srv" "team2" (some { order := some ["p2"] })
        { files := some [], channels := some [] }).1.fileInfos =
       commitFiles (some []) ∧
     (handleResultsTeamChange stR "srv" "team2" (some { order := some ["p2"] })
        { files := some [], channels := some [] }).1.fileChannelIds =
       commitChannels (some [])) :=
  ⟨by decide,
   C3_team_change_reissues stR "srv" "team2" (some { order := some ["p2"] })
     { files := some [], channels := some [] } (by decide)⟩

/-- C8 counterexample: from the committed state `stR` (whose result set
belongs to the query "cat"), the synchronous prefix of a new submit of
"new" already sets the last-searched value to "new" while the visible
result set still belongs to "cat" — so the last-searched value is set
before the search commits, and the observable state is inconsistent. -/
theorem C8_last_searched_counterexample :
    (preState stR "srv" "team1" "new").lastSearchedValue = "new" ∧
    (preState stR "srv" "team1" "new").postIds = ["p1"] ∧
    (preState stR "srv" "team1" "new").showResults = true ∧
    ("new" : String) ≠ "cat" := by
  refine ⟨by decide, by decide, by decide, by decide⟩

/-- C8 (amended): the last-searched value is set already in the submit's
synchronous prefix, before either fetch resolves, while the previous
result arrays are still in place; only once the (non-overlapped) submit
commits do the three result arrays and the last-searched value reflect the
same submitted query. -/
theorem C8_commit_consistency (st : SearchState) (serverUrl teamId term : String)
    (post : Option PostSearchResult) (file : FileSearchResult)
    (h : term ≠ "") :
    (preState st serverUrl teamId term).lastSearchedValue = term ∧
    (preState st serverUrl teamId term).postIds = st.postIds ∧
    (preState st serverUrl teamId term).fileInfos = st.fileInfos ∧
    (handleSearch st serverUrl teamId term post file).1.lastSearchedValue = term ∧
    (handleSearch st serverUrl teamId term post file).1.postIds =
      commitPostIds post ∧
    (handleSearch st serverUrl teamId term post file).1.fileInfos =
      commitFiles file.files ∧
    (handleSearch st serverUrl teamId term post file).1.fileChannelIds =
      commitChannels file.channels := by
  by_cases hs : st.showResults <;>
    unfold preState handleSearch handleSearchPre handleSearchCommit
      handleLoading getSearchParams filterFileExtensions <;>
    simp [h, hs]

/-- Witness for C8 at the concrete state `stR` and term "new". -/
theorem C8_commit_consistency_witness :
    ("new" : String) ≠ "" ∧
    ((preState stR "srv" "team1" "new").lastSearchedValue = "new" ∧
     (preState stR "srv" "team1" "new").postIds = stR.postIds ∧
     (preState stR "srv" "team1" "new").fileInfos = stR.fileInfos ∧
     (handleSearch stR "srv" "team1" "new" (some { order := some ["p2"] })
        { files := some [], channels := some [] }).1.lastSearchedValue = "new" ∧
     (handleSearch stR "srv" "team1" "new" (some { order := some ["p2"] })
        { files := some [], channels := some [] }).1.postIds =
       commitPostIds (some { order := some ["p2"] }) ∧
     (handleSearch stR "srv" "team1" "new" (some { order := some ["p2"] })
        { files := some [], channels := some [] }).1.fileInfos =
       commitFiles (some []) ∧
     (handleSearch stR "srv" "team1" "new" (some { order := some ["p2"] })
        { files := some [], channels := some [] }).1.fileChannelIds =
       commitChannels (some [])) :=
  ⟨by decide,
   C8_commit_consistency stR "srv" "team1" "new" (some { order := some ["p2"] })
     { files := some [], channels := some [] } (by decide)⟩

/-- C2: for every submit of a non-empty query, each result category is
committed through its defensive default: a fetch that failed or carried no
data commits the empty array for that category, a successful non-empty
response is committed as-is for its category, the results pane is shown,
and the committed fields are always concrete lists. -/
theorem C2_degraded_fetch (st : SearchState) (serverUrl teamId term : String)
    (post : Option PostSearchResult) (file : FileSearchResult)
    (h : term ≠ "") :
    (handleSearch st serverUrl teamId term post file).1.postIds =
      commitPostIds post ∧
    (handleSearch st serverUrl teamId term post file).1.fileInfos =
      commitFiles file.files ∧
    (handleSearch st serverUrl teamId term post file).1.fileChannelIds =
      commitChannels file.channels ∧
    (handleSearch st serverUrl teamId term post file).1.showResults = true ∧
    (file.files = none →
      (handleSearch st serverUrl teamId term post file).1.fileInfos = []) ∧
    (post = none →
      (handleSearch st serverUrl teamId term post file).1.postIds = []) ∧
    (∀ order : List String, order ≠ [] → post = some { order := some order } →
      (handleSearch st serverUrl teamId term post file).1.postIds = order) ∧
    (∀ fs : List FileInfo, fs ≠ [] → file.files = some fs →
      (handleSearch st serverUrl teamId term post file).1.fileInfos = fs) := by
  have hmain :
      (handleSearch st serverUrl teamId term post file).1.postIds =
        commitPostIds post ∧
      (handleSearch st serverUrl teamId term post file).1.fileInfos =
        commitFiles file.files ∧
      (handleSearch st serverUrl teamId term post file).1.fileChannelIds =
        commitChannels file.channels ∧
      (handleSearch st serverUrl teamId term post file).1.showResults = true := by
    by_cases hs : st.showResults <;>
      unfold handleSearch handleSearchPre handleSearchCommit handleLoading
        getSearchParams filterFileExtensions <;>
      simp [h, hs]
  refine ⟨hmain.1, hmain.2.1, hmain.2.2.1, hmain.2.2.2, ?_, ?_, ?_, ?_⟩
  · intro hf; rw [hmain.2.1, hf]; rfl
  · intro hp; rw [hmain.1, hp]; rfl
  · intro order ho hp
    rw [hmain.1, hp]
    simp [commitPostIds, ho]
  · intro fs hf hfe
    rw [hmain.2.1, hfe]
    simp [commitFiles, hf]

/-- Witness for C2: post search succeeds with ["p1"] while file search
fails (no data); the committed post ids are ["p1"] and the committed file
infos are empty. -/
theorem C2_degraded_fetch_witness :
    ("hello" : String) ≠ "" ∧
    ((handleSearch stInit "srv" "team1" "hello" (some { order := some ["p1"] })
        { files := none, channels := none }).1.postIds =
      commitPostIds (some { order := some ["p1"] }) ∧
     (handleSearch stInit "srv" "team1" "hello" (some { order := some ["p1"] })
        { files := none, channels := none }).1.fileInfos =
      commitFiles none ∧
     (handleSearch stInit "srv" "team1" "hello" (some { order := some ["p1"] })
        { files := none, channels := none }).1.fileChannelIds =
      commitChannels none ∧
     (handleSearch stInit "srv" "team1" "hello" (some { order := some ["p1"] })
        { files := none, channels := none }).1.showResults = true ∧
     ((({ files := none, channels := none } : FileSearchResult).files = none) →
       (handleSearch stInit "srv" "team1" "hello" (some { order := some ["p1"] })
          { files := none, channels := none }).1.fileInfos = []) ∧
     ((some { order := some ["p1"] } : Option PostSearchResult) = none →
       (handleSearch stInit "srv" "team1" "hello" (some { order := some ["p1"] })
          { files := none, channels := none }).1.postIds = []) ∧
     (∀ order : List String, order ≠ [] →
       (some { order := some ["p1"] } : Option PostSearchResult) =
         some { order := some order } →
       (handleSearch stInit "srv" "team1" "hello" (some { order := some ["p1"] })
          { files := none, channels := none }).1.postIds = order) ∧
     (∀ fs : List FileInfo, fs ≠ [] →
       (({ files := none, channels := none } : FileSearchResult)).files = some fs →
       (handleSearch stInit "srv" "team1" "hello" (some { order := some ["p1"] })
          { files := none, channels := none }).1.fileInfos = fs)) :=
  ⟨by decide,
   C2_degraded_fetch stInit "srv" "team1" "hello" (some { order := some ["p1"] })
     { files := none, channels := none } (by decide)⟩

/-- C1 counterexample: two overlapping submits where the first call's
fetches resolve after the second call's; the first call's late response is
committed last, so the final post ids are the first call's ["stale"], not
the second call's ["fresh"] — the stale response is not discarded. -/
theorem C1_stale_overwrite_counterexample :
    (overlappingSubmitsFinal stInit "srv" "team1" "first" "team1" "second"
        (some { order := some ["stale"] }) { files := some [], channels := some [] }
        (some { order := some ["fresh"] }) { files := some [], channels := some [] }).postIds =
      ["stale"] ∧
    ["stale"] ≠ ["fresh"] := by
  refine ⟨by decide, by decide⟩

/-- C1 (amended): the code has no stale-response guard, so for two
overlapping submits whose responses arrive in the opposite order of their
dispatch, the last-arriving (first-submitted) call's responses are the
finally committed result set, while the last-searched value remains the
second call's term. -/
theorem C1_last_arrival_wins (st0 : SearchState)
    (serverUrl team1 term1 team2 term2 : String)
    (post1 : Option PostSearchResult) (file1 : FileSearchResult)
    (post2 : Option PostSearchResult) (file2 : FileSearchResult)
    (h1 : term1 ≠ "") (h2 : term2 ≠ "") :
    (overlappingSubmitsFinal st0 serverUrl team1 term1 team2 term2
        post1 file1 post2 file2).postIds = commitPostIds post1 ∧
    (overlappingSubmitsFinal st0 serverUrl team1 term1 team2 term2
        post1 file1 post2 file2).fileInfos = commitFiles file1.files ∧
    (overlappingSubmitsFinal st0 serverUrl team1 term1 team2 term2
        post1 file1 post2 file2).fileChannelIds = commitChannels file1.channels ∧
    (overlappingSubmitsFinal st0 serverUrl team1 term1 team2 term2
        post1 file1 post2 file2).lastSearchedValue = term2 := by
  by_cases hs : st0.showResults <;>
    unfold overlappingSubmitsFinal handleSearchPre handleSearchCommit
      handleLoading getSearchParams filterFileExtensions <;>
    simp [h1, h2, hs]

/-- Witness for C1's amended theorem at concrete overlapping submits. -/
theorem C1_last_arrival_wins_witness :
    ("first" : String) ≠ "" ∧ ("second" : String) ≠ "" ∧
    ((overlappingSubmitsFinal stInit "srv" "team1" "first" "team1" "second"
        (some { order := some ["stale"] }) { files := some [], channels := some [] }
        (some { order := some ["fresh"] })
        { files := some [], channels := some [] }).postIds =
      commitPostIds (some { order := some ["stale"] }) ∧
     (overlappingSubmitsFinal stInit "srv" "team1" "first" "team1" "second"
        (some { order := some ["stale"] }) { files := some [], channels := some [] }
        (some { order := some ["fresh"] })
        { files := some [], channels := some [] }).fileInfos =
      commitFiles (some []) ∧
     (overlappingSubmitsFinal stInit "srv" "team1" "first" "team1" "second"
        (some { order := some ["stale"] }) { files := some [], channels := some [] }
        (some { order := some ["fresh"] })
        { files := some [], channels := some [] }).fileChannelIds =
      commitChannels (some []) ∧
     (overlappingSubmitsFinal stInit "srv" "team1" "first" "team1" "second"
        (some { order := some ["stale"] }) { files := some [], channels := some [] }
        (some { order := some ["fresh"] })
        { files := some [], channels := some [] }).lastSearchedValue = "second") :=
  ⟨by decide, by decide,
   C1_last_arrival_wins stInit "srv" "team1" "first" "team1" "second"
     (some { order := some ["stale"] }) { files := some [], channels := some [] }
     (some { order := some ["fresh"] }) { files := some [], channels := some [] }
     (by decide) (by decide)⟩

/-- If no file in `l` carries the id `s`, the index-map fold leaves the
accumulated entry for `s` unchanged. -/
theorem indexMapFrom_not_mem (l : List FileInfo) (k : Nat)
    (acc : String → Option Nat) (s : String)
    (h : ∀ f ∈ l, f.id ≠ some s) :
    indexMapFrom l k acc s = acc s := by
  induction l generalizing k acc with
  | nil => rfl
  | cons f rest ih =>
    have hf : f.id ≠ some s := h f (by simp)
    have hrest : ∀ g ∈ rest, g.id ≠ some s := fun g hg => h g (by simp [hg])
    cases hfi : f.id with
    | none =>
      simp only [indexMapFrom, hfi]
      exact ih (k + 1) acc hrest
    | some i =>
      have hne : s ≠ i := by
        intro he
        exact hf (by rw [hfi, he])
      simp only [indexMapFrom, hfi]
      rw [ih (k + 1) _ hrest]
      simp [hne]

/-- If `l₁ ++ f :: l₂` carries the id `s` exactly at `f`, the index-map fold
started at base index `k` maps `s` to `k + l₁.length`, the position of `f`. -/
theorem indexMapFrom_append_found (l₁ : List FileInfo) (f : FileInfo)
    (l₂ : List FileInfo) (k : Nat) (acc : String → Option Nat) (s : String)
    (hf : f.id = some s)
    (h₁ : ∀ g ∈ l₁, g.id ≠ some s) (h₂ : ∀ g ∈ l₂, g.id ≠ some s) :
    indexMapFrom (l₁ ++ f :: l₂) k acc s = some (k + l₁.length) := by
  induction l₁ generalizing k acc with
  | nil =>
    simp only [List.nil_append, indexMapFrom, hf]
    rw [indexMapFrom_not_mem l₂ (k + 1) _ s h₂]
    simp
  | cons g l₁' ih =>
    have hg : g.id ≠ some s := h₁ g (by simp)
    have h₁' : ∀ g' ∈ l₁', g'.id ≠ some s := fun g' hgi => h₁ g' (by simp [hgi])
    cases hgi : g.id with
    | none =>
      simp only [List.cons_append, indexMapFrom, hgi, List.append_eq]
      rw [ih (k + 1) acc h₁']
      congr 1
      simp [List.length_cons]
      omega
    | some j =>
      simp only [List.cons_append, indexMapFrom, hgi, List.append_eq]
      rw [ih (k + 1) _ h₁']
      congr 1
      simp [List.length_cons]
      omega

/-- When the files' ids are pairwise distinct, the index map built by the
reduce assigns a file's id the file's position in the list. -/
theorem filesForGalleryIndexes_get (l : List FileInfo) (k : Nat)
    (hk : k < l.length) (i : String)
    (hid : (l.get ⟨k, hk⟩).id = some i)
    (hnd : (l.filterMap FileInfo.id).Nodup) :
    filesForGalleryIndexes l i = some k := by
  have hl : l.take k ++ l.get ⟨k, hk⟩ :: l.drop (k + 1) = l := by
    rw [List.get_eq_getElem, ← List.drop_eq_getElem_cons hk]
    exact List.take_append_drop k l
  have hnd' : ((l.take k ++ l.get ⟨k, hk⟩ :: l.drop (k + 1)).filterMap
      FileInfo.id).Nodup := by
    rw [hl]; exact hnd
  rw [List.filterMap_append] at hnd'
  have hcons : (l.get ⟨k, hk⟩ :: l.drop (k + 1)).filterMap FileInfo.id =
      i :: (l.drop (k + 1)).filterMap FileInfo.id := by
    simp only [List.filterMap_cons, hid]
  rw [hcons, List.nodup_append] at hnd'
  obtain ⟨-, hndr, hdisj⟩ := hnd'
  have hnotB : i ∉ (l.drop (k + 1)).filterMap FileInfo.id :=
    (List.nodup_cons.mp hndr).1
  have h₁ : ∀ g ∈ l.take k, g.id ≠ some i := by
    intro g hg hgi
    exact hdisj (List.mem_filterMap.mpr ⟨g, hg, hgi⟩) (List.mem_cons_self _ _)
  have h₂ : ∀ g ∈ l.drop (k + 1), g.id ≠ some i := by
    intro g hg hgi
    exact hnotB (List.mem_filterMap.mpr ⟨g, hg, hgi⟩)
  have hfound := indexMapFrom_append_found (l.take k) (l.get ⟨k, hk⟩)
    (l.drop (k + 1)) 0 (fun _ => none) i hid h₁ h₂
  rw [hl] at hfound
  show indexMapFrom l 0 (fun _ => none) i = some k
  rw [hfound]
  congr 1
  simp [List.length_take]
  omega

/-- C10: for every file-results list (images then non-images), the sequence
handed to the preview gallery is the gallery files sorted by creation
timestamp descending (a missing `create_at` counting as 0), it is a
permutation of the input files, `handlePreviewPress` hands the gallery
exactly that ordered sequence converted to gallery items (opened at the
pressed index), and — when the files' ids are pairwise distinct — the
per-file gallery index map assigns each file id its position in the
ordered sequence. -/
theorem C10_gallery_order (images nonImages : List FileInfo)
    (hids : ((images ++ nonImages).filterMap FileInfo.id).Nodup) :
    (orderedFilesForGallery images nonImages).Pairwise
      (fun a b => galleryKey b ≤ galleryKey a) ∧
    (orderedFilesForGallery images nonImages).Perm (images ++ nonImages) ∧
    (∀ idx : Nat,
      handlePreviewPress (orderedFilesForGallery images nonImages) idx =
        ("search-files-location", idx,
         (orderedFilesForGallery images nonImages).map
           (fun f => fileToGalleryItem f f.user_id))) ∧
    (∀ (k : Nat) (hk : k < (orderedFilesForGallery images nonImages).length)
        (i : String),
      ((orderedFilesForGallery images nonImages).get ⟨k, hk⟩).id = some i →
      filesForGalleryIndexes (orderedFilesForGallery images nonImages) i =
        some k) := by
  have htrans : ∀ a b c : FileInfo, galleryLe a b → galleryLe b c → galleryLe a c := by
    intro a b c hab hbc
    simp only [galleryLe, decide_eq_true_eq] at hab hbc ⊢
    exact le_trans hbc hab
  have htotal : ∀ a b : FileInfo, galleryLe a b || galleryLe b a := by
    intro a b
    simp only [galleryLe, Bool.or_eq_true, decide_eq_true_eq]
    exact le_total _ _
  have hperm : (orderedFilesForGallery images nonImages).Perm
      (images ++ nonImages) :=
    List.mergeSort_perm (filesForGallery images nonImages) galleryLe
  refine ⟨?_, hperm, fun idx => rfl, ?_⟩
  · have hsorted := List.sorted_mergeSort htrans htotal
      (filesForGallery images nonImages)
    exact hsorted.imp (by
      intro a b hab
      simpa [galleryLe] using hab)
  · intro k hk i hid
    have hnd : ((orderedFilesForGallery images nonImages).filterMap
        FileInfo.id).Nodup :=
      ((hperm.filterMap FileInfo.id).nodup_iff).mpr hids
    exact filesForGalleryIndexes_get _ k hk i hid hnd

/-- Witness for C10 at three concrete files with distinct ids: f3 (created
at 10) sorts before f1 (created at 5), which sorts before f2 (no creation
time, treated as 0). -/
theorem C10_gallery_order_witness :
    (([{ id := some "f1", create_at := some 5, user_id := some "u1",
          channel_id := some "c1" },
        { id := some "f2", create_at := none, user_id := some "u1",
          channel_id := some "c1" }] ++
       [{ id := some "f3", create_at := some 10, user_id := some "u2",
          channel_id := some "c2" }] : List FileInfo).filterMap
      FileInfo.id).Nodup ∧
    ((orderedFilesForGallery
        [{ id := some "f1", create_at := some 5, user_id := some "u1",
            channel_id := some "c1" },
         { id := some "f2", create_at := none, user_id := some "u1",
            channel_id := some "c1" }]
        [{ id := some "f3", create_at := some 10, user_id := some "u2",
            channel_id := some "c2" }]).Pairwise
      (fun a b => galleryKey b ≤ galleryKey a) ∧
     (orderedFilesForGallery
        [{ id := some "f1", create_at := some 5, user_id := some "u1",
            channel_id := some "c1" },
         { id := some "f2", create_at := none, user_id := some "u1",
            channel_id := some "c1" }]
        [{ id := some "f3", create_at := some 10, user_id := some "u2",
            channel_id := some "c2" }]).Perm
      ([{ id := some "f1", create_at := some 5, user_id := some "u1",
           channel_id := some "c1" },
        { id := some "f2", create_at := none, user_id := some "u1",
           channel_id := some "c1" }] ++
       [{ id := some "f3", create_at := some 10, user_id := some "u2",
           channel_id := some "c2" }]) ∧
     (∀ idx : Nat,
       handlePreviewPress
         (orderedFilesForGallery
           [{ id := some "f1", create_at := some 5, user_id := some "u1",
               channel_id := some "c1" },
            { id := some "f2", create_at := none, user_id := some "u1",
               channel_id := some "c1" }]
           [{ id := some "f3", create_at := some 10, user_id := some "u2",
               channel_id := some "c2" }]) idx =
         ("search-files-location", idx,
          (orderedFilesForGallery
            [{ id := some "f1", create_at := some 5, user_id := some "u1",
                channel_id := some "c1" },
             { id := some "f2", create_at := none, user_id := some "u1",
                channel_id := some "c1" }]
            [{ id := some "f3", create_at := some 10, user_id := some "u2",
                channel_id := some "c2" }]).map
            (fun f => fileToGalleryItem f f.user_id))) ∧
     (∀ (k : Nat)
         (hk : k < (orderedFilesForGallery
           [{ id := some "f1", create_at := some 5, user_id := some "u1",
               channel_id := some "c1" },
            { id := some "f2", create_at := none, user_id := some "u1",
               channel_id := some "c1" }]
           [{ id := some "f3", create_at := some 10, user_id := some "u2",
               channel_id := some "c2" }]).length)
         (i : String),
       ((orderedFilesForGallery
           [{ id := some "f1", create_at := some 5, user_id := some "u1",
               channel_id := some "c1" },
            { id := some "f2", create_at := none, user_id := some "u1",
               channel_id := some "c1" }]
           [{ id := some "f3", create_at := some 10, user_id := some "u2",
               channel_id := some "c2" }]).get ⟨k, hk⟩).id = some i →
       filesForGalleryIndexes
           (orderedFilesForGallery
             [{ id := some "f1", create_at := some 5, user_id := some "u1",
                 channel_id := some "c1" },
              { id := some "f2", create_at := none, user_id := some "u1",
                 channel_id := some "c1" }]
             [{ id := some "f3", create_at := some 10, user_id := some "u2",
                 channel_id := some "c2" }]) i = some k)) :=
  ⟨by decide,
   C10_gallery_order
     [{ id := some "f1", create_at := some 5, user_id := some "u1",
         channel_id := some "c1" },
      { id := some "f2", create_at := none, user_id := some "u1",
         channel_id := some "c1" }]
     [{ id := some "f3", create_at := some 10, user_id := some "u2",
         channel_id := some "c2" }]
     (by decide)⟩

end MMSearch
